import Mathlib

/-!
Shallow embedding of `bevy_spine` (`src/lib.rs`): the loader state machine
(`spine_load`), the event bridge (`spine_update`), and the mesh/material
pipeline (`spine_render`), with theorems checking the specification's claims.

`f32` values are carried opaquely (as their bit patterns, type `F32 := Nat`):
the embedded code only copies them around, it never computes with them.  The
float literal `0.0` is represented by `0`.
-/

namespace BevySpine

/-- Opaque carrier for `f32` values (bit patterns); no arithmetic is done. -/
abbrev F32 := Nat

/-- `rusty_spine::BlendMode` (external enum used by `spine_render`). -/
inductive BlendMode
  | Normal
  | Additive
  | Multiply
  | Screen
deriving DecidableEq, BEq

/-- An RGBA color of `f32` channels, as in `renderable.color` / `dark_color`. -/
structure Rgba where
  r : F32
  g : F32
  b : F32
  a : F32
deriving DecidableEq

/-- One entry of `SkeletonRenderable` as produced by `spine.0.renderables()`
(external interface of `rusty_spine`): vertices `[x, y]`, `u16` indices, UVs,
color, dark color, blend mode, premultiplied-alpha flag, and the attachment
renderer object.  The renderer object is an opaque pointer in Rust; dereferenced
it yields a `SpineTexture` holding a texture path, so the model carries the
path directly, `none` standing for a null pointer. -/
structure Renderable where
  vertices : List (F32 × F32)
  indices : List Nat
  uvs : List (F32 × F32)
  color : Rgba
  dark_color : Rgba
  blend_mode : BlendMode
  premultiplied_alpha : Bool
  attachment_renderer_object : Option String
deriving DecidableEq

/-! The eight material-variant conditions, exactly as written at the
`apply_material!` invocations in `spine_render` (src/lib.rs lines 541-596). -/

/-- Condition of the `SpineNormalMaterial` invocation. -/
def normalCond (r : Renderable) : Bool :=
  r.blend_mode == BlendMode.Normal && r.premultiplied_alpha == false

/-- Condition of the `SpineAdditiveMaterial` invocation. -/
def additiveCond (r : Renderable) : Bool :=
  r.blend_mode == BlendMode.Additive && r.premultiplied_alpha == false

/-- Condition of the `SpineMultiplyMaterial` invocation. -/
def multiplyCond (r : Renderable) : Bool :=
  r.blend_mode == BlendMode.Multiply && r.premultiplied_alpha == false

/-- Condition of the `SpineScreenMaterial` invocation. -/
def screenCond (r : Renderable) : Bool :=
  r.blend_mode == BlendMode.Screen && r.premultiplied_alpha == false

/-- Condition of the `SpineNormalPmaMaterial` invocation. -/
def normalPmaCond (r : Renderable) : Bool :=
  r.blend_mode == BlendMode.Normal && r.premultiplied_alpha == true

/-- Condition of the `SpineAdditivePmaMaterial` invocation. -/
def additivePmaCond (r : Renderable) : Bool :=
  r.blend_mode == BlendMode.Additive && r.premultiplied_alpha == true

/-- Condition of the `SpineMultiplyPmaMaterial` invocation. -/
def multiplyPmaCond (r : Renderable) : Bool :=
  r.blend_mode == BlendMode.Multiply && r.premultiplied_alpha == true

/-- Condition of the `SpineScreenPmaMaterial` invocation. -/
def screenPmaCond (r : Renderable) : Bool :=
  r.blend_mode == BlendMode.Screen && r.premultiplied_alpha == true

/-- The eight variant conditions of a renderable, in the order `spine_render`
evaluates them. -/
def variantConds (r : Renderable) : List Bool :=
  [normalCond r, additiveCond r, multiplyCond r, screenCond r,
   normalPmaCond r, additivePmaCond r, multiplyPmaCond r, screenPmaCond r]

/-! ## Mesh data (`bevy::render::mesh::Mesh`, as used by this crate) -/

/-- `bevy` `Indices`: a `u16` or `u32` index list. -/
inductive MeshIndices
  | u16 (l : List Nat)
  | u32 (l : List Nat)
deriving DecidableEq

/-- The vertex-position attribute.  `spine_render` inserts it with
`VertexFormat::Float32x2` (pairs), `empty_mesh` with `Mesh::ATTRIBUTE_POSITION`
(`Float32x3`, triples); both use the same attribute id 0, so one slot. -/
inductive PositionAttr
  | xy (l : List (F32 × F32))
  | xyz (l : List (F32 × F32 × F32))
deriving DecidableEq

/-- The mesh state touched by this crate: indices plus the position, normal and
UV attributes (`set_indices` / `insert_attribute` overwrite each slot). -/
structure MeshData where
  indices : Option MeshIndices
  position : Option PositionAttr
  normal : Option (List (F32 × F32 × F32))
  uv : Option (List (F32 × F32))
deriving DecidableEq

/-- `empty_mesh` (src/lib.rs lines 605-616): empty `u32` indices, empty
position/normal/UV attribute lists. -/
def empty_mesh (mesh : MeshData) : MeshData :=
  { mesh with
    indices := some (MeshIndices.u32 []),
    position := some (PositionAttr.xyz []),
    normal := some ([] : List (F32 × F32 × F32)),
    uv := some ([] : List (F32 × F32)) }

/-! ## Materials and the per-variant asset stores -/

/-- The state of one Spine material asset that `spine_render` touches: tint
color, dark color, and the texture image handle (modelled by its path, which is
what `asset_server.load` receives). -/
structure Material where
  color : Rgba
  dark_color : Rgba
  image : String
deriving DecidableEq

/-- Modelled from the spec: the material constructors (`<$material>::new`) live
in `src/materials.rs`, which is not among the provided sources.  The spec says
"create a new material instance for the matching variant seeded with the
texture reference".  The initial colors are irrelevant to every claim:
`apply_material!` overwrites all color fields right after creation (here `1`
denotes the bit pattern of `1.0`). -/
def Material.new (image : String) : Material :=
  { color := ⟨1, 1, 1, 1⟩, dark_color := ⟨0, 0, 0, 0⟩, image := image }

/-- One `Assets<M>` store: handle/material pairs plus the next fresh handle. -/
structure MatStore where
  assets : List (Nat × Material)
  next : Nat
deriving DecidableEq

/-- `Assets::add`: allocate a fresh handle for a new material instance. -/
def MatStore.add (s : MatStore) (m : Material) : Nat × MatStore :=
  (s.next, { assets := s.assets ++ [(s.next, m)], next := s.next + 1 })

/-- `Assets::get_mut` (the lookup part): the material stored at a handle. -/
def MatStore.find (s : MatStore) (h : Nat) : Option Material :=
  (s.assets.find? (fun p => p.1 == h)).map (fun p => p.2)

/-- In-place mutation of the material stored at a handle. -/
def MatStore.update (s : MatStore) (h : Nat) (m : Material) : MatStore :=
  { s with assets := s.assets.map (fun p => if p.1 == h then (p.1, m) else p) }

/-- The result of one `apply_material!` expansion: the mesh-slot entity's
handle component for that variant after the (deferred) `insert`/`remove`
commands apply, and the variant's asset store. -/
structure ApplyOut where
  handle : Option Nat
  store : MatStore
deriving DecidableEq

/-- The body of the `apply_material!` macro (src/lib.rs lines 498-539),
parameterized by the expanded condition, the entity's current handle for the
variant, and the variant's `Assets` store.  A null
`attachment_renderer_object`, or a false condition, removes any attached
handle of the variant; a true condition with a non-null renderer object reuses
the attached handle (or allocates one seeded with the texture) and overwrites
the material's color, dark color and image. -/
def apply_material (cond : Bool) (r : Renderable) (hOpt : Option Nat)
    (assets : MatStore) : ApplyOut :=
  match r.attachment_renderer_object with
  | some texture_path =>
    if cond then
      let pair :=
        match hOpt with
        | some h => (h, assets)
        | none => assets.add (Material.new texture_path)
      let assets2 :=
        match pair.2.find pair.1 with
        | some _ =>
            pair.2.update pair.1
              { color := r.color, dark_color := r.dark_color, image := texture_path }
        | none => pair.2
      { handle := some pair.1, store := assets2 }
    else
      { handle := none, store := assets }
  | none => { handle := none, store := assets }

/-- The eight optional material-variant handles a mesh-slot entity can carry
(one `Option<Handle<M>>` per material type in `mesh_query`). -/
structure VariantHandles where
  normal : Option Nat
  additive : Option Nat
  multiply : Option Nat
  screen : Option Nat
  normalPma : Option Nat
  additivePma : Option Nat
  multiplyPma : Option Nat
  screenPma : Option Nat
deriving DecidableEq

/-- The handle for a given (blend mode, premultiplied-alpha) material key. -/
def VariantHandles.get (hs : VariantHandles) : BlendMode → Bool → Option Nat
  | BlendMode.Normal, false => hs.normal
  | BlendMode.Additive, false => hs.additive
  | BlendMode.Multiply, false => hs.multiply
  | BlendMode.Screen, false => hs.screen
  | BlendMode.Normal, true => hs.normalPma
  | BlendMode.Additive, true => hs.additivePma
  | BlendMode.Multiply, true => hs.multiplyPma
  | BlendMode.Screen, true => hs.screenPma

/-- The eight `ResMut<Assets<M>>` material stores of `spine_render`. -/
structure RenderStores where
  normal_materials : MatStore
  additive_materials : MatStore
  multiply_materials : MatStore
  screen_materials : MatStore
  normal_pma_materials : MatStore
  additive_pma_materials : MatStore
  multiply_pma_materials : MatStore
  screen_pma_materials : MatStore
deriving DecidableEq

/-- The store for a given (blend mode, premultiplied-alpha) material key. -/
def RenderStores.get (st : RenderStores) : BlendMode → Bool → MatStore
  | BlendMode.Normal, false => st.normal_materials
  | BlendMode.Additive, false => st.additive_materials
  | BlendMode.Multiply, false => st.multiply_materials
  | BlendMode.Screen, false => st.screen_materials
  | BlendMode.Normal, true => st.normal_pma_materials
  | BlendMode.Additive, true => st.additive_pma_materials
  | BlendMode.Multiply, true => st.multiply_pma_materials
  | BlendMode.Screen, true => st.screen_pma_materials

/-! ## Child entities of a Spine entity -/

/-- A mesh-slot child entity: its mesh and its material-variant handles. -/
structure MeshSlotEntity where
  mesh : MeshData
  handles : VariantHandles
deriving DecidableEq

/-- A bone in the runtime skeleton hierarchy (`rusty_spine` side): an opaque
handle id plus child bones. -/
inductive BoneNode
  | mk (handle : Nat) (children : List BoneNode)

/-- A spawned bone-proxy entity (`SpineBone`): back-reference to the owning
Spine entity, the bone handle, and the nested proxy children. -/
inductive BoneEntity
  | mk (spine_entity : Nat) (handle : Nat) (children : List BoneEntity)

mutual

/-- `spawn_bones` (src/lib.rs lines 339-366): recursively spawn one proxy
entity per bone, mirroring the runtime hierarchy. -/
def spawn_bones (spine_entity : Nat) : BoneNode → BoneEntity
  | BoneNode.mk h cs => BoneEntity.mk spine_entity h (spawnBonesList spine_entity cs)

/-- The `for child in bone.children()` loop inside `spawn_bones`. -/
def spawnBonesList (spine_entity : Nat) : List BoneNode → List BoneEntity
  | [] => []
  | c :: cs => spawn_bones spine_entity c :: spawnBonesList spine_entity cs

end

/-- A child entity of a Spine entity: either a mesh slot (matched by
`spine_render`'s `mesh_query`) or a bone proxy (not matched: it carries no
`Mesh2dHandle`). -/
inductive ChildEntity
  | meshSlot (e : MeshSlotEntity)
  | bone (b : BoneEntity)

/-- Whether a child is a mesh-slot entity. -/
def ChildEntity.isMeshSlot : ChildEntity → Bool
  | ChildEntity.meshSlot _ => true
  | ChildEntity.bone _ => false

/-! ## `spine_render` -/

/-- The body of `spine_render`'s per-child work for one mesh-slot entity found
by `mesh_query` at enumeration index `i` (src/lib.rs lines 484-599): when a
renderable exists at `i`, replace the mesh's indices (16-bit), positions, a
zero-filled normal list and UVs wholesale and run the eight `apply_material!`
expansions; otherwise blank the mesh via `empty_mesh`. -/
def renderMeshSlot (ropt : Option Renderable) (ms : MeshSlotEntity)
    (stores : RenderStores) : MeshSlotEntity × RenderStores :=
  match ropt with
  | some r =>
    let mesh : MeshData :=
      { indices := some (MeshIndices.u16 r.indices),
        position := some (PositionAttr.xy r.vertices),
        normal := some (List.replicate r.vertices.length ((0 : F32), (0 : F32), (0 : F32))),
        uv := some r.uvs }
    let a1 := apply_material (normalCond r) r ms.handles.normal stores.normal_materials
    let a2 := apply_material (additiveCond r) r ms.handles.additive stores.additive_materials
    let a3 := apply_material (multiplyCond r) r ms.handles.multiply stores.multiply_materials
    let a4 := apply_material (screenCond r) r ms.handles.screen stores.screen_materials
    let a5 := apply_material (normalPmaCond r) r ms.handles.normalPma stores.normal_pma_materials
    let a6 := apply_material (additivePmaCond r) r ms.handles.additivePma stores.additive_pma_materials
    let a7 := apply_material (multiplyPmaCond r) r ms.handles.multiplyPma stores.multiply_pma_materials
    let a8 := apply_material (screenPmaCond r) r ms.handles.screenPma stores.screen_pma_materials
    ({ mesh := mesh,
       handles := ⟨a1.handle, a2.handle, a3.handle, a4.handle,
                   a5.handle, a6.handle, a7.handle, a8.handle⟩ },
     ⟨a1.store, a2.store, a3.store, a4.store, a5.store, a6.store, a7.store, a8.store⟩)
  | none => ({ ms with mesh := empty_mesh ms.mesh }, stores)

/-- The loop `for (renderable_index, child) in spine_children.iter().enumerate()`
of `spine_render`: the enumeration index advances for every child (bone
proxies included), but only mesh-slot children match `mesh_query` and get
processed. -/
def renderChildrenFrom (renderables : List Renderable) :
    Nat → List ChildEntity → RenderStores → List ChildEntity × RenderStores
  | _, [], stores => ([], stores)
  | i, ChildEntity.meshSlot ms :: rest, stores =>
      let out := renderMeshSlot (renderables.get? i) ms stores
      let tail := renderChildrenFrom renderables (i + 1) rest out.2
      (ChildEntity.meshSlot out.1 :: tail.1, tail.2)
  | i, ChildEntity.bone b :: rest, stores =>
      let tail := renderChildrenFrom renderables (i + 1) rest stores
      (ChildEntity.bone b :: tail.1, tail.2)

/-- `spine_render` (src/lib.rs lines 442-603): for every Spine entity, fetch
its current renderables and walk its children, threading the material
stores. -/
def spine_render :
    List (List Renderable × List ChildEntity) → RenderStores →
      List (List ChildEntity) × RenderStores
  | [], stores => ([], stores)
  | (rs, cs) :: rest, stores =>
      let here := renderChildrenFrom rs 0 cs stores
      let tail := spine_render rest here.2
      (here.1 :: tail.1, tail.2)

/-! ## Assets and the loader state machine (`spine_load`) -/

/-- The `SpineLoader` component states (src/lib.rs lines 136-142). -/
inductive SpineLoaderState
  | Loading
  | Ready
  | Failed
deriving DecidableEq

/-- One texture page of an atlas, with its premultiplied-alpha flag
(`page.pma()`, external `rusty_spine` interface). -/
structure AtlasPage where
  pma : Bool
deriving DecidableEq

/-- A resolved `Atlas` asset: its ordered texture pages. -/
structure Atlas where
  pages : List AtlasPage
deriving DecidableEq

/-- The `premultipled_alpha` computation of `spine_load` (src/lib.rs lines
211, 224-226): the first page's flag, `false` when there is no page. -/
def firstPagePma (a : Atlas) : Bool :=
  match a.pages.head? with
  | some page => page.pma
  | none => false

/-- Parsed skeleton data (external `rusty_spine::SkeletonData`): the slot list
and the root of the bone hierarchy, which is all this crate reads from it. -/
structure ParsedSkeletonData where
  slots : List Nat
  boneRoot : BoneNode

/-- External `rusty_spine::AnimationStateData`: the skeleton data plus the
registered crossfade mixes (animation-name pair ↦ duration). -/
structure AnimationStateData where
  skeleton : ParsedSkeletonData
  mixes : List (String × String × F32)

/-- `AnimationStateData::new(skeleton_data)`: no mixes registered yet. -/
def AnimationStateData.new (d : ParsedSkeletonData) : AnimationStateData :=
  { skeleton := d, mixes := [] }

/-- Modelled from the spec: the `Crossfades` component lives in
`src/crossfades.rs`, which is not among the provided sources.  The spec calls
it an "optional per-entity crossfade table (animation-name-pair → mix
duration) applied once at controller construction". -/
structure Crossfades where
  table : List (String × String × F32)

/-- Modelled from the spec: `Crossfades::apply` registers the table's mixes on
the animation state data. -/
def Crossfades.apply (c : Crossfades) (a : AnimationStateData) : AnimationStateData :=
  { a with mixes := a.mixes ++ c.table }

/-- `rusty_spine::draw::CullDirection` (external). -/
inductive CullDirection
  | Clockwise
  | CounterClockwise
deriving DecidableEq

/-- `SkeletonControllerSettings` as configured by `spine_load` (src/lib.rs
lines 301-305). -/
structure SkeletonControllerSettings where
  cull_direction : CullDirection
  premultiplied_alpha : Bool
deriving DecidableEq

/-- The `SkeletonController` built by `spine_load` (src/lib.rs lines 296-305):
its skeleton data, its animation state data, and its settings. -/
structure SkeletonController where
  skeleton : ParsedSkeletonData
  animation_state_data : AnimationStateData
  settings : SkeletonControllerSettings

/-- A `SkeletonData` asset (src/assets.rs interface as used by `spine_load`):
either a JSON or a binary file pairing an atlas handle with a source handle, a
lazily created loader (`SkeletonJson`/`SkeletonBinary`, here just its
presence) and the cached parse result.  `none` in `atlas`/`source` models a
handle whose asset has not resolved yet. -/
inductive SkeletonDataAsset
  | jsonFile (atlas : Option Atlas) (json : Option String) (ldr : Bool)
      (data : Option ParsedSkeletonData)
  | binaryFile (atlas : Option Atlas) (binary : Option (List Nat)) (ldr : Bool)
      (data : Option ParsedSkeletonData)

/-- The atlas referenced by a `SkeletonData` asset, when resolved. -/
def atlasOf : SkeletonDataAsset → Option Atlas
  | SkeletonDataAsset.jsonFile atlas _ _ _ => atlas
  | SkeletonDataAsset.binaryFile atlas _ _ _ => atlas

/-- The `Assets<SkeletonData>` resource: handle/asset pairs. -/
abbrev AssetMap := List (Nat × SkeletonDataAsset)

/-- `Assets::get_mut` (the lookup part). -/
def amGet (am : AssetMap) (h : Nat) : Option SkeletonDataAsset :=
  (am.find? (fun p => p.1 == h)).map (fun p => p.2)

/-- Writing back a mutation made through `Assets::get_mut`. -/
def amSet (am : AssetMap) (h : Nat) (a : SkeletonDataAsset) : AssetMap :=
  am.map (fun p => if p.1 == h then (h, a) else p)

/-- External parse calls: `SkeletonJson::read_skeleton_data` and
`SkeletonBinary::read_skeleton_data` (`rusty_spine`). -/
structure LoadEnv where
  parseJson : String → Except Unit ParsedSkeletonData
  parseBinary : List Nat → Except Unit ParsedSkeletonData

/-- One entity of `spine_load`'s query: its id, `SpineLoader` state, skeleton
data handle, optional `Crossfades`, the `Spine` controller component once
inserted, and its spawned children. -/
structure LoadEntity where
  id : Nat
  loader : SpineLoaderState
  data_handle : Nat
  crossfades : Option Crossfades
  spine : Option SkeletonController
  children : List ChildEntity

/-- The mesh a mesh-slot child starts with:
`Mesh::new(PrimitiveTopology::TriangleList)` followed by `empty_mesh`
(src/lib.rs lines 311-312). -/
def initialMeshData : MeshData :=
  empty_mesh { indices := none, position := none, normal := none, uv := none }

/-- A freshly spawned mesh-slot child: the empty mesh, no material handle. -/
def initialMeshSlot : MeshSlotEntity :=
  { mesh := initialMeshData,
    handles := ⟨none, none, none, none, none, none, none, none⟩ }

/-- How one pass of `spine_load`'s per-entity body ended. -/
inductive LoadOutcome
  | notLoading
  | assetMissing
  | atlasPending
  | sourcePending
  | parseFailed
  | becameReady
deriving DecidableEq

/-- The success tail of `spine_load`'s per-entity body (src/lib.rs lines
296-332): build the animation state data, apply any per-entity crossfades,
construct the controller (counter-clockwise culling, atlas-derived
premultiplied alpha), spawn one empty mesh-slot child per skeleton slot and
the bone-proxy hierarchy, insert the `Spine` component, transition the loader
to `Ready`. -/
def finishLoad (e : LoadEntity) (am : AssetMap) (premultipled_alpha : Bool)
    (skeleton_data : ParsedSkeletonData) : LoadEntity × AssetMap × LoadOutcome :=
  let asd := AnimationStateData.new skeleton_data
  let animation_state_data :=
    match e.crossfades with
    | some crossfades => crossfades.apply asd
    | none => asd
  let controller : SkeletonController :=
    { skeleton := skeleton_data,
      animation_state_data := animation_state_data,
      settings := { cull_direction := CullDirection.CounterClockwise,
                    premultiplied_alpha := premultipled_alpha } }
  let meshChildren :=
    skeleton_data.slots.map (fun _ => ChildEntity.meshSlot initialMeshSlot)
  let boneChild := ChildEntity.bone (spawn_bones e.id skeleton_data.boneRoot)
  ({ e with
      loader := SpineLoaderState.Ready,
      spine := some controller,
      children := e.children ++ meshChildren ++ [boneChild] },
   am, LoadOutcome.becameReady)

/-- The per-entity body of `spine_load`'s main loop (src/lib.rs lines
202-333): gate on `Loading`; bail out (retry next tick) while the skeleton
data asset, the atlas or the source asset is unresolved; lazily create the
parse loader; reuse the cached parse result or parse, caching on success and
staying `Loading` on failure; on success run `finishLoad`. -/
def loadStep (env : LoadEnv) (am : AssetMap) (e : LoadEntity) :
    LoadEntity × AssetMap × LoadOutcome :=
  if e.loader = SpineLoaderState.Loading then
    match amGet am e.data_handle with
    | none => (e, am, LoadOutcome.assetMissing)
    | some (SkeletonDataAsset.jsonFile atlas json _ data) =>
      match atlas with
      | none => (e, am, LoadOutcome.atlasPending)
      | some atlas =>
        let premultipled_alpha := firstPagePma atlas
        match json with
        | none => (e, am, LoadOutcome.sourcePending)
        | some json =>
          let am1 := amSet am e.data_handle
            (SkeletonDataAsset.jsonFile (some atlas) (some json) true data)
          match data with
          | some d => finishLoad e am1 premultipled_alpha d
          | none =>
            match env.parseJson json with
            | Except.ok d =>
                finishLoad e
                  (amSet am1 e.data_handle
                    (SkeletonDataAsset.jsonFile (some atlas) (some json) true (some d)))
                  premultipled_alpha d
            | Except.error _ =>
                ({ e with loader := SpineLoaderState.Loading }, am1,
                 LoadOutcome.parseFailed)
    | some (SkeletonDataAsset.binaryFile atlas binary _ data) =>
      match atlas with
      | none => (e, am, LoadOutcome.atlasPending)
      | some atlas =>
        let premultipled_alpha := firstPagePma atlas
        match binary with
        | none => (e, am, LoadOutcome.sourcePending)
        | some binary =>
          let am1 := amSet am e.data_handle
            (SkeletonDataAsset.binaryFile (some atlas) (some binary) true data)
          match data with
          | some d => finishLoad e am1 premultipled_alpha d
          | none =>
            match env.parseBinary binary with
            | Except.ok d =>
                finishLoad e
                  (amSet am1 e.data_handle
                    (SkeletonDataAsset.binaryFile (some atlas) (some binary) true (some d)))
                  premultipled_alpha d
            | Except.error _ =>
                ({ e with loader := SpineLoaderState.Loading }, am1,
                 LoadOutcome.parseFailed)
  else (e, am, LoadOutcome.notLoading)

/-- `spine_load`'s main loop over the query, threading the shared
`Assets<SkeletonData>` resource and collecting the `local.ready.push(entity)`
calls in order. -/
def loadEntities (env : LoadEnv) :
    List LoadEntity → AssetMap → List LoadEntity × AssetMap × List Nat
  | [], am => ([], am, [])
  | e :: rest, am =>
      let step := loadStep env am e
      let push := if step.2.2 = LoadOutcome.becameReady then [e.id] else []
      let tail := loadEntities env rest step.2.1
      (step.1 :: tail.1, tail.2.1, push ++ tail.2.2)

/-- Observable actions of one `spine_load` run: sending a `SpineReadyEvent`
for an entity, and transitioning an entity's loader `Loading → Ready`. -/
inductive LoadAction
  | emitReady (e : Nat)
  | transition (e : Nat)
deriving DecidableEq

/-- The state `spine_load` carries across ticks: the `Local<SpineLoadLocal>`
ready list, the queried entities, and the `Assets<SkeletonData>` resource. -/
structure LoadState where
  ready : List Nat
  entities : List LoadEntity
  assets : AssetMap

/-- `spine_load` (src/lib.rs lines 180-337): first send a `SpineReadyEvent`
for every entity queued in `local.ready` last tick and reset the queue, then
run the per-entity loading loop, which pushes newly `Ready` entities onto
`local.ready` for the next tick.  The returned trace records event sends and
loader transitions in program order. -/
def spine_load (env : LoadEnv) (st : LoadState) : List LoadAction × LoadState :=
  let emits := st.ready.map LoadAction.emitReady
  let stepped := loadEntities env st.entities st.assets
  (emits ++ stepped.2.2.map LoadAction.transition,
   { ready := stepped.2.2, entities := stepped.1, assets := stepped.2.1 })

/-! ## The event bridge (`spine_update`) -/

/-- `rusty_spine::EventType` (external), as matched by the listener closure in
`spine_update`. -/
inductive EventType
  | Start
  | Interrupt
  | End
  | Complete
  | Dispose
  | Event
deriving DecidableEq

/-- One callback the animation state fires during `update`: its type, the
track entry's animation name, and the optional custom event name. -/
structure RawEvent where
  ty : EventType
  animation : String
  payload : Option String
deriving DecidableEq

/-- The public `SpineEvent` enum (src/lib.rs lines 164-172). -/
inductive SpineEvent
  | Start (entity : Nat) (animation : String)
  | Interrupt (entity : Nat) (animation : String)
  | End (entity : Nat) (animation : String)
  | Complete (entity : Nat) (animation : String)
  | Dispose (entity : Nat)
  | Event (entity : Nat) (name : String)
deriving DecidableEq

/-- The listener closure installed by `spine_update` (src/lib.rs lines
383-428): what it pushes onto the shared queue for one callback.  An `Event`
callback with no event payload pushes nothing. -/
def listenerPush (entity : Nat) (ev : RawEvent) : Option SpineEvent :=
  match ev.ty with
  | EventType.Start => some (SpineEvent.Start entity ev.animation)
  | EventType.Interrupt => some (SpineEvent.Interrupt entity ev.animation)
  | EventType.End => some (SpineEvent.End entity ev.animation)
  | EventType.Complete => some (SpineEvent.Complete entity ev.animation)
  | EventType.Dispose => some (SpineEvent.Dispose entity)
  | EventType.Event =>
      match ev.payload with
      | some name => some (SpineEvent.Event entity name)
      | none => none

/-- One entity of `spine_update`'s query over a controller-state type `σ`
(the `rusty_spine` internals are external): entity id, whether the listener
has been installed on its animation state, and the controller state. -/
structure UpdSpine (σ : Type) where
  id : Nat
  hasListener : Bool
  ctrl : σ

/-- The external `SkeletonController::update(delta)` call: new controller
state plus the callbacks fired synchronously during the advance. -/
structure UpdEnv (σ : Type) where
  update : σ → F32 → σ × List RawEvent

/-- The state `spine_update` acts on: the queried Spine entities and the
shared `Local<SpineUpdateLocal>` event queue (front = oldest). -/
structure UpdState (σ : Type) where
  spines : List (UpdSpine σ)
  queue : List SpineEvent

/-- Observable actions of one `spine_update` run: advancing one entity's
controller, and re-emitting one queued event as a public `SpineEvent`. -/
inductive UpdAction
  | advance (entity : Nat)
  | emit (ev : SpineEvent)
deriving DecidableEq

/-- The first loop of `spine_update` (src/lib.rs lines 380-430): for every
`SpineReadyEvent` read this tick, install the listener on that entity's
animation state. -/
def setListeners {σ : Type} (readyEvents : List Nat) (spines : List (UpdSpine σ)) :
    List (UpdSpine σ) :=
  readyEvents.foldl
    (fun sp ev =>
      sp.map (fun s => if s.id = ev then { s with hasListener := true } else s))
    spines

/-- The second loop of `spine_update` (src/lib.rs lines 431-433): advance
every controller by the tick's delta; callbacks fired during an advance are
pushed onto the shared queue (in callback order) when the listener is
installed.  Returns the advanced entities, the pushed events in push order,
and the advance actions in program order. -/
def advanceAll {σ : Type} (env : UpdEnv σ) (delta : F32) :
    List (UpdSpine σ) → List (UpdSpine σ) × List SpineEvent × List UpdAction
  | [] => ([], [], [])
  | s :: rest =>
      let out := env.update s.ctrl delta
      let pushed :=
        if s.hasListener then out.2.filterMap (listenerPush s.id) else []
      let tail := advanceAll env delta rest
      ({ s with ctrl := out.1 } :: tail.1, pushed ++ tail.2.1,
       UpdAction.advance s.id :: tail.2.2)

/-- The drain loop of `spine_update` (src/lib.rs lines 434-439):
`while let Some(event) = events.pop_front() { spine_events.send(event); }`. -/
def drainQueue : List SpineEvent → List UpdAction
  | [] => []
  | ev :: rest => UpdAction.emit ev :: drainQueue rest

/-- `spine_update` (src/lib.rs lines 373-440): install listeners for newly
ready entities, advance every controller (callbacks extend the shared queue),
then drain the queue, re-emitting each entry as a public `SpineEvent`. -/
def spine_update {σ : Type} (env : UpdEnv σ) (readyEvents : List Nat)
    (delta : F32) (st : UpdState σ) : List UpdAction × UpdState σ :=
  let spines1 := setListeners readyEvents st.spines
  let adv := advanceAll env delta spines1
  let queue1 := st.queue ++ adv.2.1
  (adv.2.2 ++ drainQueue queue1, { spines := adv.1, queue := [] })

/-! ## Concrete sample values used to instantiate the theorems -/

/-- A sample parsed skeleton: two slots, a two-bone hierarchy. -/
def sampleSkeleton : ParsedSkeletonData :=
  { slots := [7, 8], boneRoot := BoneNode.mk 0 [BoneNode.mk 1 []] }

/-- An environment whose parsers always succeed with `sampleSkeleton`. -/
def envOk : LoadEnv :=
  { parseJson := fun _ => Except.ok sampleSkeleton,
    parseBinary := fun _ => Except.ok sampleSkeleton }

/-- An environment whose parsers always fail. -/
def envFail : LoadEnv :=
  { parseJson := fun _ => Except.error (),
    parseBinary := fun _ => Except.error () }

/-- A sample atlas with one premultiplied-alpha page. -/
def atlasW : Atlas := { pages := [{ pma := true }] }

/-- A sample unparsed JSON skeleton-data asset with resolved atlas and json. -/
def assetW : SkeletonDataAsset :=
  SkeletonDataAsset.jsonFile (some atlasW) (some "skeleton") false none

/-- A sample `Assets<SkeletonData>` resource holding `assetW` at handle 1. -/
def amW : AssetMap := [(1, assetW)]

/-- A sample loading entity (id 5, handle 1, no crossfades). -/
def entW : LoadEntity :=
  { id := 5, loader := SpineLoaderState.Loading, data_handle := 1,
    crossfades := none, spine := none, children := [] }

/-- A sample loading entity with a crossfade table. -/
def entCfW : LoadEntity :=
  { entW with crossfades := some { table := [("run", "walk", 3)] } }

/-- A sample `spine_load` state: nothing queued, one loading entity. -/
def stW : LoadState := { ready := [], entities := [entW], assets := amW }

/-- A sample renderable with a Normal/straight-alpha material key. -/
def rendW : Renderable :=
  { vertices := [(1, 2), (3, 4), (5, 6)], indices := [0, 1, 2],
    uvs := [(0, 0), (1, 0), (1, 1)],
    color := ⟨1, 2, 3, 4⟩, dark_color := ⟨5, 6, 7, 8⟩,
    blend_mode := BlendMode.Normal, premultiplied_alpha := false,
    attachment_renderer_object := some "tex.png" }

/-- `rendW` with a null attachment renderer object. -/
def rendNullW : Renderable := { rendW with attachment_renderer_object := none }

/-- A sample material stored before `spine_render` runs. -/
def matW : Material := { color := ⟨9, 9, 9, 9⟩, dark_color := ⟨8, 8, 8, 8⟩, image := "old.png" }

/-- A sample Normal-material store holding `matW` at handle 3. -/
def storeW : MatStore := { assets := [(3, matW)], next := 4 }

/-- Sample render stores: `storeW` for Normal, the rest empty. -/
def storesW : RenderStores :=
  ⟨storeW, ⟨[], 0⟩, ⟨[], 0⟩, ⟨[], 0⟩, ⟨[], 0⟩, ⟨[], 0⟩, ⟨[], 0⟩, ⟨[], 0⟩⟩

/-- Sample variant handles: a Normal handle (3) attached, nothing else. -/
def hsW : VariantHandles := ⟨some 3, none, none, none, none, none, none, none⟩

/-- A sample mesh-slot entity carrying `hsW`. -/
def msW : MeshSlotEntity := { mesh := initialMeshData, handles := hsW }

/-- Sample children: one mesh slot followed by one bone proxy. -/
def csW : List ChildEntity :=
  [ChildEntity.meshSlot msW, ChildEntity.bone (BoneEntity.mk 5 0 [])]

end BevySpine

namespace BevySpine

/-- C2: for every renderable material key (blend mode × premultiplied-alpha),
exactly one of the 8 material-variant predicates used by `spine_render` is
true: no key satisfies two predicates, none satisfies zero. -/
theorem variant_predicates_mutually_exclusive_exhaustive (r : Renderable) :
    (variantConds r).count true = 1 := by
  obtain ⟨v, is, us, c, dc, bm, pma, obj⟩ := r
  cases bm <;> cases pma <;> rfl

/-! ## The event bridge (`spine_update`) -/

theorem drainQueue_eq_map (q : List SpineEvent) :
    drainQueue q = q.map UpdAction.emit := by
  induction q with
  | nil => rfl
  | cons ev rest ih => simp [drainQueue, ih]

theorem advanceAll_trace {σ : Type} (env : UpdEnv σ) (delta : F32)
    (spines : List (UpdSpine σ)) :
    (advanceAll env delta spines).2.2
      = spines.map (fun s => UpdAction.advance s.id) := by
  induction spines with
  | nil => rfl
  | cons s rest ih => simp [advanceAll, ih]

/-- C3: in every `spine_update` tick, every controller is advanced first and
the shared queue is drained only after the advancing loop is complete; the
queued events are re-emitted as public `SpineEvent`s in FIFO order (previously
queued events first, then each entity's pushes in push order), and the drain
leaves the queue empty. -/
theorem spine_update_advances_all_then_drains_fifo {σ : Type} (env : UpdEnv σ)
    (readyEvents : List Nat) (delta : F32) (st : UpdState σ) :
    (spine_update env readyEvents delta st).1
      = (setListeners readyEvents st.spines).map (fun s => UpdAction.advance s.id)
        ++ (st.queue
            ++ (advanceAll env delta (setListeners readyEvents st.spines)).2.1).map
             UpdAction.emit
    ∧ (spine_update env readyEvents delta st).2.queue = [] := by
  constructor
  · simp [spine_update, advanceAll_trace, drainQueue_eq_map]
  · rfl

/-! ## The mesh pipeline (`spine_render`) -/

theorem renderChildrenFrom_meshSlot_at (rs : List Renderable) :
    ∀ (cs : List ChildEntity) (k i : Nat) (stores : RenderStores)
      (ms : MeshSlotEntity),
      cs.get? i = some (ChildEntity.meshSlot ms) →
      ∃ st1, (renderChildrenFrom rs k cs stores).1.get? i
        = some (ChildEntity.meshSlot (renderMeshSlot (rs.get? (k + i)) ms st1).1) := by
  intro cs
  induction cs with
  | nil => intro k i stores ms h; simp at h
  | cons c rest ih =>
    intro k i stores ms h
    cases c with
    | meshSlot ms0 =>
      cases i with
      | zero =>
        have hms : ms0 = ms := by simpa using h
        subst hms
        exact ⟨stores, by simp [renderChildrenFrom]⟩
      | succ j =>
        have h2 : rest.get? j = some (ChildEntity.meshSlot ms) := by simpa using h
        obtain ⟨st1, hst⟩ := ih (k + 1) j
          (renderMeshSlot (rs.get? k) ms0 stores).2 ms h2
        refine ⟨st1, ?_⟩
        have hidx : k + 1 + j = k + (j + 1) := by omega
        simpa [renderChildrenFrom, hidx] using hst
    | bone b =>
      cases i with
      | zero => simp at h
      | succ j =>
        have h2 : rest.get? j = some (ChildEntity.meshSlot ms) := by simpa using h
        obtain ⟨st1, hst⟩ := ih (k + 1) j stores ms h2
        refine ⟨st1, ?_⟩
        have hidx : k + 1 + j = k + (j + 1) := by omega
        simpa [renderChildrenFrom, hidx] using hst

/-- C5: a mesh-slot child at positional index `i` with no renderable at `i`
this frame (index at or beyond the renderable count) gets its mesh blanked to
zero vertices, indices, UVs and normals, while every material-variant handle
attached to it stays exactly as it was. -/
theorem missing_renderable_blanks_mesh_keeps_materials (rs : List Renderable)
    (cs : List ChildEntity) (stores : RenderStores) (i : Nat)
    (ms : MeshSlotEntity)
    (hc : cs.get? i = some (ChildEntity.meshSlot ms))
    (hlen : rs.length ≤ i) :
    (renderChildrenFrom rs 0 cs stores).1.get? i
      = some (ChildEntity.meshSlot
          { mesh := { indices := some (MeshIndices.u32 []),
                      position := some (PositionAttr.xyz []),
                      normal := some [],
                      uv := some [] },
            handles := ms.handles }) := by
  obtain ⟨st1, h1⟩ := renderChildrenFrom_meshSlot_at rs cs 0 i stores ms hc
  have hz : rs.get? (0 + i) = none := by
    rw [Nat.zero_add]
    exact List.get?_eq_none.mpr hlen
  rw [hz] at h1
  exact h1

/-- C5 witness: instantiated at an empty renderable list and a mesh-slot child
at index 0 that carries a Normal material handle. -/
theorem missing_renderable_blanks_mesh_keeps_materials_witness :
    (renderChildrenFrom [] 0 csW storesW).1.get? 0
      = some (ChildEntity.meshSlot
          { mesh := { indices := some (MeshIndices.u32 []),
                      position := some (PositionAttr.xyz []),
                      normal := some [],
                      uv := some [] },
            handles := msW.handles }) :=
  missing_renderable_blanks_mesh_keeps_materials [] csW storesW 0 msW rfl
    (by decide)

/-- C7: a mesh-slot child at positional index `i` with a renderable at `i`
gets its buffers replaced wholesale: indices become the renderable's indices
in 16-bit format, positions and UVs become exactly the renderable's vertices
and uvs, and the normal attribute becomes a zero-filled list with one `[0,0,0]`
entry per vertex. -/
theorem renderable_replaces_mesh_buffers_wholesale (rs : List Renderable)
    (cs : List ChildEntity) (stores : RenderStores) (i : Nat)
    (ms : MeshSlotEntity) (r : Renderable)
    (hc : cs.get? i = some (ChildEntity.meshSlot ms))
    (hr : rs.get? i = some r) :
    ∃ hs, (renderChildrenFrom rs 0 cs stores).1.get? i
      = some (ChildEntity.meshSlot
          { mesh := { indices := some (MeshIndices.u16 r.indices),
                      position := some (PositionAttr.xy r.vertices),
                      normal := some (List.replicate r.vertices.length
                        ((0 : F32), (0 : F32), (0 : F32))),
                      uv := some r.uvs },
            handles := hs }) := by
  obtain ⟨st1, h1⟩ := renderChildrenFrom_meshSlot_at rs cs 0 i stores ms hc
  rw [Nat.zero_add, hr] at h1
  exact ⟨_, h1⟩

/-- C7 witness: instantiated with one renderable and its mesh-slot child at
index 0. -/
theorem renderable_replaces_mesh_buffers_wholesale_witness :
    ∃ hs, (renderChildrenFrom [rendW] 0 csW storesW).1.get? 0
      = some (ChildEntity.meshSlot
          { mesh := { indices := some (MeshIndices.u16 rendW.indices),
                      position := some (PositionAttr.xy rendW.vertices),
                      normal := some (List.replicate rendW.vertices.length
                        ((0 : F32), (0 : F32), (0 : F32))),
                      uv := some rendW.uvs },
            handles := hs }) :=
  renderable_replaces_mesh_buffers_wholesale [rendW] csW storesW 0 msW rendW
    rfl rfl

/-- C10: for a renderable whose attachment render object is null,
`spine_render` still updates the mesh buffers but removes every
material-variant handle from the mesh-slot entity — the matching variant's
included — and neither creates nor updates any material. -/
theorem null_render_object_removes_all_variant_handles (r : Renderable)
    (ms : MeshSlotEntity) (stores : RenderStores)
    (h : r.attachment_renderer_object = none) :
    renderMeshSlot (some r) ms stores
      = ({ mesh := { indices := some (MeshIndices.u16 r.indices),
                     position := some (PositionAttr.xy r.vertices),
                     normal := some (List.replicate r.vertices.length
                       ((0 : F32), (0 : F32), (0 : F32))),
                     uv := some r.uvs },
           handles := ⟨none, none, none, none, none, none, none, none⟩ },
         stores) := by
  obtain ⟨v, is, us, c, dc, bm, pma, obj⟩ := r
  cases h
  rfl

theorem keys_map_update (l : List (Nat × Material)) (h : Nat) (m : Material) :
    (l.map (fun p => if p.1 == h then (p.1, m) else p)).map (fun p => p.1)
      = l.map (fun p => p.1) := by
  induction l with
  | nil => rfl
  | cons q tl ih =>
    simp only [List.map_cons, ih, List.cons.injEq]
    refine ⟨?_, trivial⟩
    split <;> rfl

theorem find_map_update (l : List (Nat × Material)) (h : Nat) (m m0 : Material)
    (hf : (l.find? (fun p => p.1 == h)).map (fun p => p.2) = some m0) :
    ((l.map (fun p => if p.1 == h then (p.1, m) else p)).find?
        (fun p => p.1 == h)).map (fun p => p.2) = some m := by
  induction l with
  | nil => simp at hf
  | cons q tl ih =>
    cases hq : (q.1 == h)
    · rw [List.find?_cons_of_neg _ (by simp [hq])] at hf
      rw [List.map_cons, if_neg (by simp [hq]),
        List.find?_cons_of_neg _ (by simp [hq])]
      exact ih hf
    · rw [List.map_cons, if_pos hq, List.find?_cons_of_pos _ (by simpa using hq)]
      rfl

theorem MatStore.find_update_self (s : MatStore) (h : Nat) (m m0 : Material)
    (hf : s.find h = some m0) : (s.update h m).find h = some m :=
  find_map_update s.assets h m m0 hf

theorem apply_material_matching (r : Renderable) (tex : String) (h : Nat)
    (assets : MatStore) (m0 : Material)
    (hobj : r.attachment_renderer_object = some tex)
    (hf : assets.find h = some m0) :
    apply_material true r (some h) assets
      = { handle := some h,
          store := assets.update h
            { color := r.color, dark_color := r.dark_color, image := tex } } := by
  obtain ⟨v, is, us, c, dc, bm, pma, obj⟩ := r
  cases hobj
  simp [apply_material, hf]

theorem renderMeshSlot_matching (r : Renderable) (ms : MeshSlotEntity)
    (stores : RenderStores) :
    (renderMeshSlot (some r) ms stores).1.handles.get r.blend_mode
        r.premultiplied_alpha
      = (apply_material true r
          (ms.handles.get r.blend_mode r.premultiplied_alpha)
          (stores.get r.blend_mode r.premultiplied_alpha)).handle
    ∧ (renderMeshSlot (some r) ms stores).2.get r.blend_mode
        r.premultiplied_alpha
      = (apply_material true r
          (ms.handles.get r.blend_mode r.premultiplied_alpha)
          (stores.get r.blend_mode r.premultiplied_alpha)).store := by
  obtain ⟨v, is, us, c, dc, bm, pma, obj⟩ := r
  cases bm <;> cases pma <;> exact ⟨rfl, rfl⟩

/-- C6: when a mesh-slot entity already holds a handle for the material
variant matching the renderable's (blend mode, premultiplied-alpha) key and
the renderable's render object is non-null, `spine_render` reuses that handle
(no new handle is attached), allocates no new material in that variant's store
(same next-handle counter, same stored handles), and mutates only that
material in place to the renderable's color, dark color and texture. -/
theorem matching_variant_reuses_handle_updates_in_place (r : Renderable)
    (ms : MeshSlotEntity) (stores : RenderStores) (h : Nat) (tex : String)
    (m0 : Material)
    (hh : ms.handles.get r.blend_mode r.premultiplied_alpha = some h)
    (hobj : r.attachment_renderer_object = some tex)
    (hm : (stores.get r.blend_mode r.premultiplied_alpha).find h = some m0) :
    (renderMeshSlot (some r) ms stores).1.handles.get r.blend_mode
        r.premultiplied_alpha = some h
    ∧ ((renderMeshSlot (some r) ms stores).2.get r.blend_mode
        r.premultiplied_alpha).next
        = (stores.get r.blend_mode r.premultiplied_alpha).next
    ∧ ((renderMeshSlot (some r) ms stores).2.get r.blend_mode
        r.premultiplied_alpha).assets.map (fun p => p.1)
        = (stores.get r.blend_mode r.premultiplied_alpha).assets.map (fun p => p.1)
    ∧ ((renderMeshSlot (some r) ms stores).2.get r.blend_mode
        r.premultiplied_alpha).find h
        = some { color := r.color, dark_color := r.dark_color, image := tex } := by
  have hkey := renderMeshSlot_matching r ms stores
  rw [hkey.1, hkey.2, hh, apply_material_matching r tex h _ m0 hobj hm]
  exact ⟨rfl, rfl, keys_map_update _ _ _,
    MatStore.find_update_self _ _ _ m0 hm⟩

/-- C6 witness: instantiated at a Normal/straight-alpha renderable whose mesh
slot already holds the matching Normal handle 3 backed by a stored material. -/
theorem matching_variant_reuses_handle_updates_in_place_witness :
    (renderMeshSlot (some rendW) msW storesW).1.handles.get rendW.blend_mode
        rendW.premultiplied_alpha = some 3
    ∧ ((renderMeshSlot (some rendW) msW storesW).2.get rendW.blend_mode
        rendW.premultiplied_alpha).next
        = (storesW.get rendW.blend_mode rendW.premultiplied_alpha).next
    ∧ ((renderMeshSlot (some rendW) msW storesW).2.get rendW.blend_mode
        rendW.premultiplied_alpha).assets.map (fun p => p.1)
        = (storesW.get rendW.blend_mode rendW.premultiplied_alpha).assets.map
            (fun p => p.1)
    ∧ ((renderMeshSlot (some rendW) msW storesW).2.get rendW.blend_mode
        rendW.premultiplied_alpha).find 3
        = some { color := rendW.color, dark_color := rendW.dark_color,
                 image := "tex.png" } :=
  matching_variant_reuses_handle_updates_in_place rendW msW storesW 3
    "tex.png" matW rfl rfl rfl

/-! ## The loader (`spine_load`) -/

theorem loadStep_skips_not_loading (env : LoadEnv) (am : AssetMap)
    (e : LoadEntity) (h : e.loader ≠ SpineLoaderState.Loading) :
    loadStep env am e = (e, am, LoadOutcome.notLoading) := by
  unfold loadStep
  rw [if_neg h]

theorem loadStep_loading_not_skipped (env : LoadEnv) (am : AssetMap)
    (e : LoadEntity) (h : e.loader = SpineLoaderState.Loading) :
    (loadStep env am e).2.2 ≠ LoadOutcome.notLoading := by
  unfold loadStep
  rw [if_pos h]
  split
  · simp
  · split
    · simp
    · split
      · simp
      · split
        · simp [finishLoad]
        · split
          · simp [finishLoad]
          · simp
  · split
    · simp
    · split
      · simp
      · split
        · simp [finishLoad]
        · split
          · simp [finishLoad]
          · simp

theorem loadStep_becameReady (env : LoadEnv) (am : AssetMap) (e : LoadEntity)
    (h : (loadStep env am e).2.2 = LoadOutcome.becameReady) :
    ∃ asset atlas am2 d,
      amGet am e.data_handle = some asset
      ∧ atlasOf asset = some atlas
      ∧ loadStep env am e = finishLoad e am2 (firstPagePma atlas) d := by
  revert h
  unfold loadStep
  split
  · split
    · intro h; simp at h
    · rename_i heq
      split
      · intro h; simp at h
      · split
        · intro h; simp at h
        · split
          · intro _
            exact ⟨_, _, _, _, heq, rfl, rfl⟩
          · split
            · intro _
              exact ⟨_, _, _, _, heq, rfl, rfl⟩
            · intro h; simp at h
    · rename_i heq
      split
      · intro h; simp at h
      · split
        · intro h; simp at h
        · split
          · intro _
            exact ⟨_, _, _, _, heq, rfl, rfl⟩
          · split
            · intro _
              exact ⟨_, _, _, _, heq, rfl, rfl⟩
            · intro h; simp at h
  · intro h; simp at h

theorem LoadEntity.set_loader_self (e : LoadEntity)
    (h : e.loader = SpineLoaderState.Loading) :
    ({ e with loader := SpineLoaderState.Loading } : LoadEntity) = e := by
  cases e
  simp only at h
  rw [h]

theorem countP_meshSlot_replicate (n : Nat) (x : MeshSlotEntity) :
    (List.replicate n (ChildEntity.meshSlot x)).countP ChildEntity.isMeshSlot
      = n := by
  induction n with
  | zero => rfl
  | succ k ih =>
    simp [List.replicate_succ, List.countP_cons, ih, ChildEntity.isMeshSlot]

theorem countP_meshSlot_map (l : List Nat) (x : MeshSlotEntity) :
    (l.map (fun _ => ChildEntity.meshSlot x)).countP ChildEntity.isMeshSlot
      = l.length := by
  induction l with
  | nil => rfl
  | cons a tl ih =>
    simp [List.countP_cons, countP_meshSlot_replicate, ChildEntity.isMeshSlot]

/-- C4: when a controller transitions to Ready, `spine_load` appends exactly
one mesh-slot child per skeleton slot, in slot order, each starting as the
empty mesh (plus the bone-proxy subtree), so the mesh-slot child count grows
by exactly the controller's slot count; and the resulting entity is `Ready`,
which every later `spine_load` pass skips unchanged, fixing the count for the
controller's lifetime. -/
theorem ready_spawns_one_mesh_slot_per_slot (env : LoadEnv) (am : AssetMap)
    (e : LoadEntity)
    (h : (loadStep env am e).2.2 = LoadOutcome.becameReady) :
    ∃ c, (loadStep env am e).1.spine = some c
    ∧ (loadStep env am e).1.children
        = e.children
          ++ c.skeleton.slots.map (fun _ => ChildEntity.meshSlot initialMeshSlot)
          ++ [ChildEntity.bone (spawn_bones e.id c.skeleton.boneRoot)]
    ∧ (loadStep env am e).1.children.countP ChildEntity.isMeshSlot
        = e.children.countP ChildEntity.isMeshSlot + c.skeleton.slots.length
    ∧ (loadStep env am e).1.loader = SpineLoaderState.Ready
    ∧ ∀ env2 am2, loadStep env2 am2 (loadStep env am e).1
        = ((loadStep env am e).1, am2, LoadOutcome.notLoading) := by
  obtain ⟨asset, atlas, am2, d, _, _, heq⟩ := loadStep_becameReady env am e h
  rw [heq]
  refine ⟨_, rfl, rfl, ?_, rfl, ?_⟩
  · show (e.children
        ++ d.slots.map (fun _ => ChildEntity.meshSlot initialMeshSlot)
        ++ [ChildEntity.bone (spawn_bones e.id d.boneRoot)]).countP
          ChildEntity.isMeshSlot = _
    simp [List.countP_append, countP_meshSlot_map, countP_meshSlot_replicate,
      List.countP_cons, ChildEntity.isMeshSlot]
  · intro env2 am3
    exact loadStep_skips_not_loading env2 am3 _ (by simp [finishLoad])

/-- C4 witness: a loading entity whose JSON asset parses to a two-slot
skeleton. -/
theorem ready_spawns_one_mesh_slot_per_slot_witness :
    ∃ c, (loadStep envOk amW entW).1.spine = some c
    ∧ (loadStep envOk amW entW).1.children
        = entW.children
          ++ c.skeleton.slots.map (fun _ => ChildEntity.meshSlot initialMeshSlot)
          ++ [ChildEntity.bone (spawn_bones entW.id c.skeleton.boneRoot)]
    ∧ (loadStep envOk amW entW).1.children.countP ChildEntity.isMeshSlot
        = entW.children.countP ChildEntity.isMeshSlot + c.skeleton.slots.length
    ∧ (loadStep envOk amW entW).1.loader = SpineLoaderState.Ready
    ∧ ∀ env2 am2, loadStep env2 am2 (loadStep envOk amW entW).1
        = ((loadStep envOk amW entW).1, am2, LoadOutcome.notLoading) :=
  ready_spawns_one_mesh_slot_per_slot envOk amW entW rfl

/-- C8: an entity in `Loading` whose skeleton-data parse fails stays
`Loading` (never `Failed`), gains no `Spine` controller component and no
children that tick, and — still being `Loading` — is processed again (not
skipped) by any later `spine_load` pass. -/
theorem parse_failure_stays_loading (env : LoadEnv) (am : AssetMap)
    (e : LoadEntity)
    (h : (loadStep env am e).2.2 = LoadOutcome.parseFailed) :
    (loadStep env am e).1 = e
    ∧ (loadStep env am e).1.loader = SpineLoaderState.Loading
    ∧ (loadStep env am e).1.spine = e.spine
    ∧ (loadStep env am e).1.children = e.children
    ∧ ∀ env2 am2, (loadStep env2 am2 (loadStep env am e).1).2.2
        ≠ LoadOutcome.notLoading := by
  have hl : e.loader = SpineLoaderState.Loading := by
    by_contra hne
    rw [loadStep_skips_not_loading env am e hne] at h
    simp at h
  have heq : (loadStep env am e).1 = e := by
    revert h
    unfold loadStep
    rw [if_pos hl]
    split
    · intro h; simp at h
    · split
      · intro h; simp at h
      · split
        · intro h; simp at h
        · split
          · intro h; simp [finishLoad] at h
          · split
            · intro h; simp [finishLoad] at h
            · intro _; exact LoadEntity.set_loader_self e hl
    · split
      · intro h; simp at h
      · split
        · intro h; simp at h
        · split
          · intro h; simp [finishLoad] at h
          · split
            · intro h; simp [finishLoad] at h
            · intro _; exact LoadEntity.set_loader_self e hl
  refine ⟨heq, ?_, ?_, ?_, ?_⟩
  · rw [heq]; exact hl
  · rw [heq]
  · rw [heq]
  · intro env2 am2
    exact loadStep_loading_not_skipped env2 am2 _ (by rw [heq]; exact hl)

/-- C8 witness: a loading entity whose JSON parse always fails. -/
theorem parse_failure_stays_loading_witness :
    (loadStep envFail amW entW).1 = entW
    ∧ (loadStep envFail amW entW).1.loader = SpineLoaderState.Loading
    ∧ (loadStep envFail amW entW).1.spine = entW.spine
    ∧ (loadStep envFail amW entW).1.children = entW.children
    ∧ ∀ env2 am2, (loadStep env2 am2 (loadStep envFail amW entW).1).2.2
        ≠ LoadOutcome.notLoading :=
  parse_failure_stays_loading envFail amW entW rfl

/-- C9: every controller `spine_load` constructs is configured with
counter-clockwise culling and a premultiplied-alpha flag equal to the first
atlas page's pma (false with no pages, via `firstPagePma`), and its animation
state data is `AnimationStateData::new` with the entity's crossfades, when
present, applied before construction. -/
theorem controller_settings_and_crossfades (env : LoadEnv) (am : AssetMap)
    (e : LoadEntity)
    (h : (loadStep env am e).2.2 = LoadOutcome.becameReady) :
    ∃ c asset atlas,
      (loadStep env am e).1.spine = some c
      ∧ amGet am e.data_handle = some asset
      ∧ atlasOf asset = some atlas
      ∧ c.settings.cull_direction = CullDirection.CounterClockwise
      ∧ c.settings.premultiplied_alpha = firstPagePma atlas
      ∧ (e.crossfades = none →
          c.animation_state_data = AnimationStateData.new c.skeleton)
      ∧ ∀ cf, e.crossfades = some cf →
          c.animation_state_data = cf.apply (AnimationStateData.new c.skeleton) := by
  obtain ⟨asset, atlas, am2, d, hget, hatlas, heq⟩ := loadStep_becameReady env am e h
  rw [heq]
  refine ⟨_, asset, atlas, rfl, hget, hatlas, rfl, rfl, ?_, ?_⟩
  · intro hcf
    show (match e.crossfades with
      | some crossfades => crossfades.apply (AnimationStateData.new d)
      | none => AnimationStateData.new d) = _
    rw [hcf]
  · intro cf hcf
    show (match e.crossfades with
      | some crossfades => crossfades.apply (AnimationStateData.new d)
      | none => AnimationStateData.new d) = _
    rw [hcf]

/-- C9 witness: a loading entity with a crossfade table and a one-page
premultiplied-alpha atlas. -/
theorem controller_settings_and_crossfades_witness :
    ∃ c asset atlas,
      (loadStep envOk amW entCfW).1.spine = some c
      ∧ amGet amW entCfW.data_handle = some asset
      ∧ atlasOf asset = some atlas
      ∧ c.settings.cull_direction = CullDirection.CounterClockwise
      ∧ c.settings.premultiplied_alpha = firstPagePma atlas
      ∧ (entCfW.crossfades = none →
          c.animation_state_data = AnimationStateData.new c.skeleton)
      ∧ ∀ cf, entCfW.crossfades = some cf →
          c.animation_state_data = cf.apply (AnimationStateData.new c.skeleton) :=
  controller_settings_and_crossfades envOk amW entCfW rfl

theorem loadEntities_pushes_sublist (env : LoadEnv) :
    ∀ (es : List LoadEntity) (am : AssetMap),
      (loadEntities env es am).2.2.Sublist (es.map LoadEntity.id) := by
  intro es
  induction es with
  | nil => intro am; simp [loadEntities]
  | cons e rest ih =>
    intro am
    simp only [loadEntities, List.map_cons]
    by_cases hc : (loadStep env am e).2.2 = LoadOutcome.becameReady
    · rw [if_pos hc, List.singleton_append]
      exact List.Sublist.cons₂ _ (ih _)
    · rw [if_neg hc, List.nil_append]
      exact List.Sublist.cons _ (ih _)

/-- C1: an entity whose controller transitions `Loading → Ready` in tick N of
`spine_load` gets no `SpineReadyEvent` in tick N's trace; in tick N+1's trace
exactly one `SpineReadyEvent` carries it, and all of tick N+1's event sends
(the queued-ready prefix) come before any of tick N+1's new transitions. -/
theorem ready_event_emitted_exactly_once_next_tick (env : LoadEnv)
    (st : LoadState) (e : Nat)
    (hnodup : (st.entities.map LoadEntity.id).Nodup)
    (hnotq : e ∉ st.ready)
    (htrans : e ∈ (spine_load env st).2.ready) :
    LoadAction.emitReady e ∉ (spine_load env st).1
    ∧ (spine_load env (spine_load env st).2).1.count (LoadAction.emitReady e) = 1
    ∧ ∃ rest, (spine_load env (spine_load env st).2).1
        = (spine_load env st).2.ready.map LoadAction.emitReady ++ rest
      ∧ ∀ a ∈ rest, ∃ x, a = LoadAction.transition x := by
  have hmem : e ∈ (spine_load env st).2.ready := htrans
  have hnd : (spine_load env st).2.ready.Nodup :=
    (loadEntities_pushes_sublist env st.entities st.assets).nodup hnodup
  refine ⟨?_, ?_, ?_⟩
  · intro hin
    rcases List.mem_append.mp hin with hl | hr
    · exact hnotq (by simpa using List.mem_map.mp hl)
    · obtain ⟨x, _, hx⟩ := List.mem_map.mp hr
      exact LoadAction.noConfusion hx
  · show (((spine_load env st).2.ready.map LoadAction.emitReady)
        ++ ((loadEntities env (spine_load env st).2.entities
              (spine_load env st).2.assets).2.2.map
            LoadAction.transition)).count (LoadAction.emitReady e) = 1
    rw [List.count_append,
      List.count_map_of_injective _ LoadAction.emitReady
        (fun a b hab => by injection hab) e,
      List.count_eq_one_of_mem hnd hmem,
      List.count_eq_zero.mpr (by
        intro hin
        obtain ⟨x, _, hx⟩ := List.mem_map.mp hin
        exact LoadAction.noConfusion hx)]
  · refine ⟨(loadEntities env (spine_load env st).2.entities
        (spine_load env st).2.assets).2.2.map LoadAction.transition, rfl, ?_⟩
    intro a ha
    obtain ⟨x, _, hx⟩ := List.mem_map.mp ha
    exact ⟨x, hx.symm⟩

/-- C1 witness: one loading entity (id 5) that becomes ready in tick N; its
ready event appears exactly once in tick N+1's trace and not in tick N's. -/
theorem ready_event_emitted_exactly_once_next_tick_witness :
    (stW.entities.map LoadEntity.id).Nodup
    ∧ (5 : Nat) ∉ stW.ready
    ∧ 5 ∈ (spine_load envOk stW).2.ready
    ∧ (LoadAction.emitReady 5 ∉ (spine_load envOk stW).1
      ∧ (spine_load envOk (spine_load envOk stW).2).1.count
          (LoadAction.emitReady 5) = 1
      ∧ ∃ rest, (spine_load envOk (spine_load envOk stW).2).1
          = (spine_load envOk stW).2.ready.map LoadAction.emitReady ++ rest
        ∧ ∀ a ∈ rest, ∃ x, a = LoadAction.transition x) :=
  ⟨by decide, by decide, by decide,
   ready_event_emitted_exactly_once_next_tick envOk stW 5 (by decide)
     (by decide) (by decide)⟩

/-- C10 witness: instantiated at a renderable with a null render object and a
mesh slot that carries a matching Normal handle. -/
theorem null_render_object_removes_all_variant_handles_witness :
    renderMeshSlot (some rendNullW) msW storesW
      = ({ mesh := { indices := some (MeshIndices.u16 rendNullW.indices),
                     position := some (PositionAttr.xy rendNullW.vertices),
                     normal := some (List.replicate rendNullW.vertices.length
                       ((0 : F32), (0 : F32), (0 : F32))),
                     uv := some rendNullW.uvs },
           handles := ⟨none, none, none, none, none, none, none, none⟩ },
         storesW) :=
  null_render_object_removes_all_variant_handles rendNullW msW storesW rfl

end BevySpine
